import Mathlib

/-!
Shallow embedding of the client-side bootstrap-and-access gate of the
xagent frontend: the setup-status probe hook
(src/frontend/src/hooks/use-setup-status.ts), the route classification
(src/frontend/src/lib/auth-pages.ts), and the layout gate component
LayoutContent. Machine-level JavaScript behaviour that the code relies
on, namely the Boolean() truthiness coercion and the falsiness of null
and the empty string, is modelled explicitly.
-/

/-- JavaScript runtime values as far as the parsed JSON fields are
concerned. Absent object properties read as undefined. Numbers are
modelled as integers, which covers every number the claims mention. -/
inductive JSValue where
  | undefined : JSValue
  | null : JSValue
  | bool : Bool → JSValue
  | num : Int → JSValue
  | str : String → JSValue
deriving DecidableEq

/-- The JavaScript Boolean() coercion applied by the hook to each parsed
field: undefined, null, 0 and the empty string are falsy, everything
else modelled here is truthy. -/
def jsBoolean : JSValue → Bool
  | .undefined => false
  | .null => false
  | .bool b => b
  | .num n => n != 0
  | .str s => s != ""

/-- The options object of useSetupStatus; each flag defaults to false
when missing from the destructured options argument. -/
structure SetupStatusOptions where
  redirectToSetupIfNeeded : Bool
  redirectToLoginIfRegistrationClosed : Bool
  redirectToLoginIfInitialized : Bool
deriving DecidableEq

/-- The SetupStatusState record held in the React state of the hook. -/
structure SetupStatusState where
  isLoading : Bool
  initialized : Bool
  needsSetup : Bool
  registrationEnabled : Bool
deriving DecidableEq

/-- The JSON body of a successful setup-status response, as the three
property reads data.needs_setup, data.initialized and
data.registration_enabled see it; a field absent from the body reads as
JSValue.undefined. -/
structure SetupStatusData where
  needs_setup : JSValue
  initialized : JSValue
  registration_enabled : JSValue
deriving DecidableEq

/-- Outcome of the single fetch of the setup-status endpoint as the
await points of checkSetupStatus observe it: the request or the JSON
parse throws (exn covers malformed JSON bodies), the response is
non-2xx (response.ok is false), or a body parsed successfully. -/
inductive FetchOutcome where
  | exn : FetchOutcome
  | notOk : FetchOutcome
  | success : SetupStatusData → FetchOutcome
deriving DecidableEq

/-- The observable side effects of one resolution of the hook body:
a browser location assignment, the setState that only clears isLoading
(spreading the previous state), or the setState publishing a full
resolved status. -/
inductive Effect where
  | navigate : String → Effect
  | setLoadingFalse : Effect
  | publish : SetupStatusState → Effect
deriving DecidableEq

/-- The initial state passed to useState by useSetupStatus. -/
def initialSetupStatus : SetupStatusState :=
  { isLoading := true, initialized := false, needsSetup := false,
    registrationEnabled := true }

/-- One resolution of the async body checkSetupStatus of useSetupStatus,
run when the single fetch settles. The parameter isCancelled is the
value of the closure flag at that moment, true exactly when the effect
cleanup ran before the fetch settled. The returned list records, in
program order, the navigation assignments and setState calls performed
by the code on that resolution. -/
def checkSetupStatus (opts : SetupStatusOptions) (outcome : FetchOutcome)
    (isCancelled : Bool) : List Effect :=
  match outcome with
  | .exn => if !isCancelled then [.setLoadingFalse] else []
  | .notOk => if !isCancelled then [.setLoadingFalse] else []
  | .success data =>
      let needsSetup := jsBoolean data.needs_setup
      let initialized := jsBoolean data.initialized
      let registrationEnabled := jsBoolean data.registration_enabled
      if opts.redirectToSetupIfNeeded && needsSetup then
        [.navigate "/setup"]
      else if opts.redirectToLoginIfRegistrationClosed && !needsSetup
          && !registrationEnabled then
        [.navigate "/login"]
      else if opts.redirectToLoginIfInitialized && initialized && !needsSetup then
        [.navigate "/login"]
      else if !isCancelled then
        [.publish { isLoading := false, initialized := initialized,
                    needsSetup := needsSetup,
                    registrationEnabled := registrationEnabled }]
      else
        []

/-- How one effect acts on the React state: navigation does not touch
the state, setLoadingFalse spreads the previous state with isLoading
cleared, publish replaces the state. -/
def applyEffect (s : SetupStatusState) : Effect → SetupStatusState
  | .navigate _ => s
  | .setLoadingFalse => { s with isLoading := false }
  | .publish t => t

/-- The state after a list of effects has acted, in order. -/
def applyEffects (s : SetupStatusState) (es : List Effect) : SetupStatusState :=
  es.foldl applyEffect s

/-- The successive states the hook exposes during one activation that
resolves with the given outcome: the initial state followed by the state
after each recorded effect. -/
def probeTrajectory (opts : SetupStatusOptions) (outcome : FetchOutcome)
    (isCancelled : Bool) : List SetupStatusState :=
  (checkSetupStatus opts outcome isCancelled).scanl applyEffect initialSetupStatus

/-- Whether an effect is a browser navigation. -/
def isNavigation : Effect → Bool
  | .navigate _ => true
  | _ => false

/-- Whether an effect mutates the React state (either setState form). -/
def isStateUpdate : Effect → Bool
  | .navigate _ => false
  | .setLoadingFalse => true
  | .publish _ => true

/-- True when a list of effects contains no navigation. -/
def noNavigation (es : List Effect) : Bool :=
  es.all (fun e => !isNavigation e)

/-- The fixed set of public auth paths from auth-pages.ts. -/
def AUTH_PUBLIC_PATHS : List String := ["/login", "/register", "/setup"]

/-- Route classification from auth-pages.ts: the guard rejects a falsy
pathname, which for the string-or-null input type means null or the
empty string; every other string is tested for membership in
AUTH_PUBLIC_PATHS. -/
def isAuthPublicPath : Option String → Bool
  | none => false
  | some p => if p = "" then false else AUTH_PUBLIC_PATHS.contains p

/-- The two sibling regions of the protected shell inside the
full-viewport flex container: the Sidebar navigation panel and the main
content region that hosts the page body. -/
inductive Region where
  | navigationPanel : Region
  | contentWithBody : Region
deriving DecidableEq

/-- The output shape of LayoutContent: either the page body alone, or
the body wrapped in AppProvider carrying a token prop together with the
listed shell regions. -/
inductive RenderOutput where
  | bodyOnly : RenderOutput
  | appShell : Option String → List Region → RenderOutput
deriving DecidableEq

/-- LayoutContent from the layout gate: auth pages render the children
alone; every other page wraps them in AppProvider, whose token prop
receives the token when it is truthy and undefined otherwise because the
source passes the disjunction of token and undefined, around the
Sidebar-plus-main flex shell. -/
def LayoutContent (pathname : Option String) (token : Option String) :
    RenderOutput :=
  if isAuthPublicPath pathname then
    .bodyOnly
  else
    .appShell
      (match token with
        | some t => if t = "" then none else some t
        | none => none)
      [.navigationPanel, .contentWithBody]

/-- Helper: a scanl trajectory always starts with its initial value. -/
theorem scanl_head (l : List Effect) (s : SetupStatusState) :
    (l.scanl applyEffect s).head? = some s := by
  cases l <;> simp [List.scanl]

/-- C8: for every redirect policy (and every fetch outcome and
cancellation state), the first state the probe exposes is exactly
isLoading true, initialized false, needsSetup false,
registrationEnabled true. -/
theorem C8_initial_status (opts : SetupStatusOptions) (o : FetchOutcome)
    (c : Bool) :
    (probeTrajectory opts o c).head? =
      some { isLoading := true, initialized := false, needsSetup := false,
             registrationEnabled := true } :=
  scanl_head _ _

/-- C4: route classification is total and exact: a null path classifies
as protected, and a string path classifies as public exactly when it is
one of the three literals. -/
theorem C4_classification_total :
    isAuthPublicPath none = false ∧
    ∀ s : String, isAuthPublicPath (some s) =
      (s == "/login" || s == "/register" || s == "/setup") := by
  refine ⟨rfl, fun s => ?_⟩
  by_cases h0 : s = ""
  · subst h0; decide
  · by_cases h1 : s = "/login" <;> by_cases h2 : s = "/register" <;>
      by_cases h3 : s = "/setup" <;>
      simp [isAuthPublicPath, AUTH_PUBLIC_PATHS, h0, h1, h2, h3,
        List.contains, List.any, Bool.or_assoc, beq_iff_eq]

/-- C1 counterexample: with the Register-page policy flag
redirectToSetupIfNeeded set, a fetch that resolves successfully with
needs_setup true AFTER the activation was cancelled still issues the
navigation to /setup: the code checks isCancelled before each setState
but not before assigning window.location.href, so the claimed
suppression of navigation after cancellation fails. -/
theorem C1_counterexample :
    checkSetupStatus
      { redirectToSetupIfNeeded := true,
        redirectToLoginIfRegistrationClosed := false,
        redirectToLoginIfInitialized := false }
      (.success { needs_setup := .bool true, initialized := .bool false,
                  registration_enabled := .bool true })
      true = [.navigate "/setup"] := rfl

/-- C1 (amended): for every redirect policy and fetch outcome, when the
activation is cancelled before the fetch resolves, no state update
occurs (every recorded effect is a navigation and the React state is
left unchanged); navigation, however, is not suppressed by
cancellation. -/
theorem C1_cancellation_suppresses_state_updates (opts : SetupStatusOptions)
    (o : FetchOutcome) :
    (checkSetupStatus opts o true).all (fun e => !isStateUpdate e) = true ∧
    ∀ s : SetupStatusState, applyEffects s (checkSetupStatus opts o true) = s := by
  obtain ⟨a, b, c⟩ := opts
  rcases o with _ | _ | d
  · simp [checkSetupStatus, applyEffects]
  · simp [checkSetupStatus, applyEffects]
  · cases h1 : jsBoolean d.needs_setup <;> cases h2 : jsBoolean d.initialized <;>
      cases h3 : jsBoolean d.registration_enabled <;>
      cases a <;> cases b <;> cases c <;>
      simp [checkSetupStatus, h1, h2, h3, isStateUpdate, applyEffects, applyEffect]

/-- C2: under the Register-page policy and a successful response whose
fields parse to needsSetup true, initialized false and
registrationEnabled true, the only effect of the resolution, cancelled
or not, is the navigation to /setup; in particular no status is
published, because rule 1 returns before the later checks run. -/
theorem C2_redirect_precedence (d : SetupStatusData) (c : Bool)
    (h1 : jsBoolean d.needs_setup = true)
    (h2 : jsBoolean d.initialized = false)
    (h3 : jsBoolean d.registration_enabled = true) :
    checkSetupStatus
      { redirectToSetupIfNeeded := true,
        redirectToLoginIfRegistrationClosed := true,
        redirectToLoginIfInitialized := false }
      (.success d) c = [.navigate "/setup"] := by
  simp [checkSetupStatus, h1, h2, h3]

/-- C2 witness: the precedence theorem instantiated at a concrete
boolean response body. -/
theorem C2_redirect_precedence_witness :
    checkSetupStatus
      { redirectToSetupIfNeeded := true,
        redirectToLoginIfRegistrationClosed := true,
        redirectToLoginIfInitialized := false }
      (.success { needs_setup := .bool true, initialized := .bool false,
                  registration_enabled := .bool true })
      false = [.navigate "/setup"] :=
  C2_redirect_precedence
    { needs_setup := .bool true, initialized := .bool false,
      registration_enabled := .bool true }
    false rfl rfl rfl

/-- C3: for every redirect policy, when the fetch yields a non-2xx
response or throws and the activation is not cancelled, the only effect
is the setState that clears isLoading: no navigation is issued, and the
resulting state keeps the previous values of initialized, needsSetup
and registrationEnabled. -/
theorem C3_fail_open (opts : SetupStatusOptions) (s : SetupStatusState)
    (o : FetchOutcome) (h : o = .notOk ∨ o = .exn) :
    noNavigation (checkSetupStatus opts o false) = true ∧
    applyEffects s (checkSetupStatus opts o false) =
      { s with isLoading := false } := by
  rcases h with h | h <;> subst h <;>
    simp [checkSetupStatus, noNavigation, isNavigation, applyEffects, applyEffect]

/-- C3 witness: the fail-open theorem instantiated at the default
policy, the initial state and a non-2xx response. -/
theorem C3_fail_open_witness :
    noNavigation
      (checkSetupStatus
        { redirectToSetupIfNeeded := false,
          redirectToLoginIfRegistrationClosed := false,
          redirectToLoginIfInitialized := false }
        .notOk false) = true ∧
    applyEffects initialSetupStatus
      (checkSetupStatus
        { redirectToSetupIfNeeded := false,
          redirectToLoginIfRegistrationClosed := false,
          redirectToLoginIfInitialized := false }
        .notOk false) = { initialSetupStatus with isLoading := false } :=
  C3_fail_open _ _ _ (Or.inl rfl)

/-- C5 counterexample: under the policy with only
redirectToLoginIfRegistrationClosed set, a successful response with
initialized false and needsSetup false but registration_enabled also
false DOES navigate, to /login: rule 2 fires because its condition is
not-needsSetup and not-registrationEnabled, so the claim that such a
response resolves to no redirect under every policy is false. -/
theorem C5_counterexample :
    checkSetupStatus
      { redirectToSetupIfNeeded := false,
        redirectToLoginIfRegistrationClosed := true,
        redirectToLoginIfInitialized := false }
      (.success { needs_setup := .bool false, initialized := .bool false,
                  registration_enabled := .bool false })
      false = [.navigate "/login"] := rfl

/-- C5 (amended): for every redirect policy, a successful response whose
fields parse to initialized false and needsSetup false, with
registrationEnabled true, is not treated as an error and resolves to no
redirect: no navigation is issued under any cancellation state, and on
the uncancelled path the probe publishes the resolved status with
isLoading false. -/
theorem C5_policy_inconsistency_fail_open (opts : SetupStatusOptions)
    (d : SetupStatusData) (c : Bool)
    (h1 : jsBoolean d.needs_setup = false)
    (h2 : jsBoolean d.initialized = false)
    (h3 : jsBoolean d.registration_enabled = true) :
    noNavigation (checkSetupStatus opts (.success d) c) = true ∧
    checkSetupStatus opts (.success d) false =
      [.publish { isLoading := false, initialized := false,
                  needsSetup := false, registrationEnabled := true }] := by
  obtain ⟨a, b, c'⟩ := opts
  cases a <;> cases b <;> cases c' <;> cases c <;>
    simp [checkSetupStatus, h1, h2, h3, noNavigation, isNavigation]

/-- C5 witness: the amended fail-open theorem instantiated with every
policy flag set and a concrete boolean response body. -/
theorem C5_policy_inconsistency_fail_open_witness :
    noNavigation
      (checkSetupStatus
        { redirectToSetupIfNeeded := true,
          redirectToLoginIfRegistrationClosed := true,
          redirectToLoginIfInitialized := true }
        (.success { needs_setup := .bool false, initialized := .bool false,
                    registration_enabled := .bool true })
        false) = true ∧
    checkSetupStatus
      { redirectToSetupIfNeeded := true,
        redirectToLoginIfRegistrationClosed := true,
        redirectToLoginIfInitialized := true }
      (.success { needs_setup := .bool false, initialized := .bool false,
                  registration_enabled := .bool true })
      false =
      [.publish { isLoading := false, initialized := false,
                  needsSetup := false, registrationEnabled := true }] :=
  C5_policy_inconsistency_fail_open _ _ false rfl rfl rfl

/-- C6: under the Login-page policy, with all three flags false, no
fetch outcome ever produces a navigation; every uncancelled resolution
leaves the state with isLoading false; and an uncancelled successful
resolution publishes exactly the parsed flags. -/
theorem C6_login_page_never_navigates (o : FetchOutcome) (c : Bool)
    (s : SetupStatusState) (d : SetupStatusData) :
    noNavigation
      (checkSetupStatus
        { redirectToSetupIfNeeded := false,
          redirectToLoginIfRegistrationClosed := false,
          redirectToLoginIfInitialized := false } o c) = true ∧
    (applyEffects s
      (checkSetupStatus
        { redirectToSetupIfNeeded := false,
          redirectToLoginIfRegistrationClosed := false,
          redirectToLoginIfInitialized := false } o false)).isLoading = false ∧
    checkSetupStatus
      { redirectToSetupIfNeeded := false,
        redirectToLoginIfRegistrationClosed := false,
        redirectToLoginIfInitialized := false } (.success d) false =
      [.publish { isLoading := false, initialized := jsBoolean d.initialized,
                  needsSetup := jsBoolean d.needs_setup,
                  registrationEnabled := jsBoolean d.registration_enabled }] := by
  refine ⟨?_, ?_, ?_⟩
  · rcases o with _ | _ | d2 <;> cases c <;>
      simp [checkSetupStatus, noNavigation, isNavigation]
  · rcases o with _ | _ | d2 <;>
      simp [checkSetupStatus, applyEffects, applyEffect]
  · simp [checkSetupStatus]

/-- C7: for every current path and session token, the route gate renders
the page body unmodified exactly when the path classifies as
public-auth; on every other path it renders the body inside the shared
application context, carrying the session token when one is present and
non-empty and the no-token sentinel when it is absent, together with the
two-region shell of navigation panel plus content region. -/
theorem C7_route_gate (path : Option String) (tok : Option String) :
    (isAuthPublicPath path = true → LayoutContent path tok = .bodyOnly) ∧
    (isAuthPublicPath path = false → tok = none →
      LayoutContent path tok =
        .appShell none [.navigationPanel, .contentWithBody]) ∧
    (isAuthPublicPath path = false → ∀ t : String, tok = some t → t ≠ "" →
      LayoutContent path tok =
        .appShell (some t) [.navigationPanel, .contentWithBody]) := by
  refine ⟨fun h => ?_, fun h ht => ?_, fun h t ht hne => ?_⟩
  · simp [LayoutContent, h]
  · subst ht; simp [LayoutContent, h]
  · subst ht; simp [LayoutContent, h, hne]

/-- C7 witness: the route-gate theorem instantiated at the three
concrete cases of a public path, a protected path with no token, and a
protected path with a non-empty token. -/
theorem C7_route_gate_witness :
    LayoutContent (some "/login") (some "tok") = .bodyOnly ∧
    LayoutContent (some "/chat") none =
      .appShell none [.navigationPanel, .contentWithBody] ∧
    LayoutContent (some "/chat") (some "tok") =
      .appShell (some "tok") [.navigationPanel, .contentWithBody] :=
  ⟨(C7_route_gate (some "/login") (some "tok")).1 (by decide),
   (C7_route_gate (some "/chat") none).2.1 (by decide) rfl,
   (C7_route_gate (some "/chat") (some "tok")).2.2 (by decide) "tok" rfl
     (by decide)⟩

/-- C9: on an uncancelled successful resolution under the no-redirect
policy the probe publishes exactly the Boolean coercions of the three
body fields needs_setup, initialized and registration_enabled, and a
body with all three fields absent publishes all three flags as false. -/
theorem C9_parse_fields (d : SetupStatusData) :
    checkSetupStatus
      { redirectToSetupIfNeeded := false,
        redirectToLoginIfRegistrationClosed := false,
        redirectToLoginIfInitialized := false } (.success d) false =
      [.publish { isLoading := false, initialized := jsBoolean d.initialized,
                  needsSetup := jsBoolean d.needs_setup,
                  registrationEnabled := jsBoolean d.registration_enabled }] ∧
    checkSetupStatus
      { redirectToSetupIfNeeded := false,
        redirectToLoginIfRegistrationClosed := false,
        redirectToLoginIfInitialized := false }
      (.success { needs_setup := .undefined, initialized := .undefined,
                  registration_enabled := .undefined }) false =
      [.publish { isLoading := false, initialized := false,
                  needsSetup := false, registrationEnabled := false }] := by
  exact ⟨by simp [checkSetupStatus], rfl⟩

/-- C10: the three fields are parsed by JavaScript truthiness, not by
strict boolean typing: the published flags are the jsBoolean coercion of
whatever value each field holds, the truthy non-booleans such as the
string false and the number 1 coerce to true, and the falsy values 0,
the empty string, null and an absent field coerce to false. -/
theorem C10_truthiness_coercion (v : JSValue) :
    checkSetupStatus
      { redirectToSetupIfNeeded := false,
        redirectToLoginIfRegistrationClosed := false,
        redirectToLoginIfInitialized := false }
      (.success { needs_setup := v, initialized := v,
                  registration_enabled := v }) false =
      [.publish { isLoading := false, initialized := jsBoolean v,
                  needsSetup := jsBoolean v,
                  registrationEnabled := jsBoolean v }] ∧
    jsBoolean (.str "false") = true ∧ jsBoolean (.num 1) = true ∧
    jsBoolean (.num 0) = false ∧ jsBoolean (.str "") = false ∧
    jsBoolean .null = false ∧ jsBoolean .undefined = false := by
  refine ⟨by simp [checkSetupStatus], ?_, ?_, ?_, ?_, rfl, rfl⟩ <;> decide
